import Mathlib

/-!
Verification of the idaes-pySTAR specification against the repository code.

The repository provides chemical process unit-operation models on top of an
algebraic modeling framework.  The only model implementation present in the
source tree is the Flash unit (src/idaes/unit_models/flash.py); the
SolventReboiler unit, the BTX NRTL property package and the framework
utilities (degrees_of_freedom, solver interface) appear only through their
tests, so those parts are modelled from the specification and the behaviour
their tests pin down.

All embedded definitions are executable; numeric quantities use rationals.
-/

namespace IdaesPySTAR

/- ===================== Flash unit model (flash.py) ===================== -/

/-- Material balance type enumeration, mirrored from the IDAES core enum
referenced by flash.py (members listed in the config doc text). -/
inductive MaterialBalanceType where
| none
| componentPhase
| componentTotal
| elementTotal
| total
deriving DecidableEq, Repr

/-- Energy balance type enumeration, mirrored from the IDAES core enum
referenced by flash.py. -/
inductive EnergyBalanceType where
| none
| enthalpyTotal
| enthalpyPhase
| energyTotal
| energyPhase
deriving DecidableEq, Repr

/-- Momentum balance type enumeration, mirrored from the IDAES core enum
referenced by flash.py. -/
inductive MomentumBalanceType where
| none
| pressureTotal
| pressurePhase
| momentumTotal
| momentumPhase
deriving DecidableEq, Repr

/-- A dynamically typed Python value, as passed to a Pyomo ConfigValue.
Only the variants that can reach the Flash config options are modelled:
booleans, the three balance-type enums, and strings. -/
inductive ConfigArg where
| pyBool : Bool → ConfigArg
| pyMaterial : MaterialBalanceType → ConfigArg
| pyEnergy : EnergyBalanceType → ConfigArg
| pyMomentum : MomentumBalanceType → ConfigArg
| pyStr : String → ConfigArg
deriving DecidableEq, Repr

/-- Python equality between config-level values: values of different Python
types (an enum member and a string, say) compare unequal; values of the same
type compare by their contents.  This models the semantics of the guards
in FlashData.build comparing a balance type against the string none. -/
def pyEq : ConfigArg → ConfigArg → Bool
| ConfigArg.pyBool a, ConfigArg.pyBool b => a == b
| ConfigArg.pyMaterial a, ConfigArg.pyMaterial b => a == b
| ConfigArg.pyEnergy a, ConfigArg.pyEnergy b => a == b
| ConfigArg.pyMomentum a, ConfigArg.pyMomentum b => a == b
| ConfigArg.pyStr a, ConfigArg.pyStr b => a == b
| _, _ => false

/-- Domain check of Pyomo In(\x5bFalse\x5d): accepts exactly the value False. -/
def inFalseOnly : ConfigArg → Bool
| ConfigArg.pyBool false => true
| _ => false

/-- Domain check of Pyomo In(\x5bTrue, False\x5d): accepts exactly booleans. -/
def inTrueFalse : ConfigArg → Bool
| ConfigArg.pyBool _ => true
| _ => false

/-- Domain check of Pyomo In(MaterialBalanceType): accepts exactly members
of the MaterialBalanceType enumeration. -/
def inMaterialBalanceType : ConfigArg → Bool
| ConfigArg.pyMaterial _ => true
| _ => false

/-- Domain check of Pyomo In(EnergyBalanceType). -/
def inEnergyBalanceType : ConfigArg → Bool
| ConfigArg.pyEnergy _ => true
| _ => false

/-- Domain check of Pyomo In(MomentumBalanceType). -/
def inMomentumBalanceType : ConfigArg → Bool
| ConfigArg.pyMomentum _ => true
| _ => false

/-- The domain declared for each scalar option of FlashData.CONFIG
(flash.py lines 52 to 120).  An unknown option name has an empty domain.
The property_package options take framework objects and are outside the
value universe modelled here. -/
def flashConfigDomain : String → ConfigArg → Bool
| "dynamic" => inFalseOnly
| "has_holdup" => inFalseOnly
| "material_balance_type" => inMaterialBalanceType
| "energy_balance_type" => inEnergyBalanceType
| "momentum_balance_type" => inMomentumBalanceType
| "has_heat_transfer" => inTrueFalse
| "has_pressure_change" => inTrueFalse
| _ => fun _ => false

/-- The default value declared for each scalar option of FlashData.CONFIG. -/
def flashConfigDefault : String → Option ConfigArg
| "dynamic" => some (ConfigArg.pyBool false)
| "has_holdup" => some (ConfigArg.pyBool false)
| "material_balance_type" =>
    some (ConfigArg.pyMaterial MaterialBalanceType.componentPhase)
| "energy_balance_type" =>
    some (ConfigArg.pyEnergy EnergyBalanceType.enthalpyTotal)
| "momentum_balance_type" =>
    some (ConfigArg.pyMomentum MomentumBalanceType.pressureTotal)
| "has_heat_transfer" => some (ConfigArg.pyBool true)
| "has_pressure_change" => some (ConfigArg.pyBool true)
| _ => Option.none

/-- The default stated inside the doc text of the two heat and pressure
options of FlashData.CONFIG.  The doc of has_heat_transfer says the default
is False although the declared default is True. -/
def flashConfigDocDefaultText : String → Option String
| "has_heat_transfer" => some "False"
| "has_pressure_change" => some "True"
| _ => Option.none

/-- A validated Flash configuration, holding the scalar options of
FlashData.CONFIG with their declared Lean-level types. -/
structure FlashConfig where
  dynamic : Bool
  has_holdup : Bool
  material_balance_type : MaterialBalanceType
  energy_balance_type : EnergyBalanceType
  momentum_balance_type : MomentumBalanceType
  has_heat_transfer : Bool
  has_pressure_change : Bool
deriving DecidableEq, Repr

/-- The Flash configuration obtained when every option keeps its declared
default (flash.py lines 52 to 120). -/
def defaultFlashConfig : FlashConfig :=
{ dynamic := false
  has_holdup := false
  material_balance_type := MaterialBalanceType.componentPhase
  energy_balance_type := EnergyBalanceType.enthalpyTotal
  momentum_balance_type := MomentumBalanceType.pressureTotal
  has_heat_transfer := true
  has_pressure_change := true }

/-- Splitting type enumeration of the separator module; flash.py uses
SplittingType.phaseFlow. -/
inductive SplittingType where
| totalFlow
| phaseFlow
| componentFlow
| phaseComponentFlow
deriving DecidableEq, Repr

/-- Configuration passed by FlashData.build to the Separator it creates
(flash.py lines 181 to 191). -/
structure SeparatorConfig where
  outlet_list : List String
  split_basis : SplittingType
  ideal_separation : Bool
  ideal_split_map : List (String × String)
deriving DecidableEq, Repr

/-- The calls FlashData.build makes on its control volume: the state blocks,
the material, energy and momentum balances, with the flags passed to each
(flash.py lines 159 to 172). -/
structure ControlVolumeSpec where
  state_blocks_has_phase_equilibrium : Bool
  material_balance_type : MaterialBalanceType
  material_has_phase_equilibrium : Bool
  energy_balance_type : EnergyBalanceType
  has_heat_transfer : Bool
  momentum_balance_type : MomentumBalanceType
  has_pressure_change : Bool
deriving DecidableEq, Repr

/-- The structure produced by FlashData.build: the control volume calls, the
ports added, the separator configuration, and whether the heat_duty and
deltaP references were added. -/
structure FlashModel where
  control_volume : ControlVolumeSpec
  inlet_ports : List String
  split : SeparatorConfig
  outlet_ports : List String
  has_heat_duty : Bool
  has_deltaP : Bool
deriving DecidableEq, Repr

/-- The ideal split map built by FlashData.build (flash.py lines 177 to
179): every phase of the property package phase list maps to itself. -/
def flashSplitMap (phase_list : List String) : List (String × String) :=
  phase_list.map (fun p => (p, p))

/-- FlashData.build (flash.py lines 139 to 202), as a function from the
validated configuration and the property package phase list to the
constructed structure.  The guards for the heat_duty and deltaP references
compare the enum-valued balance type against the string "none" exactly as
the Python code does, through pyEq. -/
def flashBuild (config : FlashConfig) (phase_list : List String) :
    FlashModel :=
{ control_volume :=
  { state_blocks_has_phase_equilibrium := true
    material_balance_type := config.material_balance_type
    material_has_phase_equilibrium := true
    energy_balance_type := config.energy_balance_type
    has_heat_transfer := config.has_heat_transfer
    momentum_balance_type := config.momentum_balance_type
    has_pressure_change := config.has_pressure_change }
  inlet_ports := ["inlet"]
  split :=
  { outlet_list := ["Vap", "Liq"]
    split_basis := SplittingType.phaseFlow
    ideal_separation := true
    ideal_split_map := flashSplitMap phase_list }
  outlet_ports := ["vap_outlet", "liq_outlet"]
  has_heat_duty := config.has_heat_transfer &&
    !(pyEq (ConfigArg.pyEnergy config.energy_balance_type)
        (ConfigArg.pyStr "none"))
  has_deltaP := config.has_pressure_change &&
    !(pyEq (ConfigArg.pyMomentum config.momentum_balance_type)
        (ConfigArg.pyStr "none")) }

/-- C1: the Flash options dynamic and has_holdup are domain-checked by
In(\x5bFalse\x5d), so any value other than False is rejected, and a value for
material_balance_type that is not a MaterialBalanceType member is rejected
by its In(MaterialBalanceType) domain. -/
theorem flash_config_domain_checks :
    (∀ v : ConfigArg,
      flashConfigDomain "dynamic" v = true ↔ v = ConfigArg.pyBool false) ∧
    (∀ v : ConfigArg,
      flashConfigDomain "has_holdup" v = true ↔ v = ConfigArg.pyBool false) ∧
    (∀ v : ConfigArg,
      flashConfigDomain "material_balance_type" v = true ↔
        ∃ m, v = ConfigArg.pyMaterial m) := by
  refine ⟨?_, ?_, ?_⟩ <;> intro v <;>
    cases v with
    | pyBool b =>
        cases b <;>
          simp [flashConfigDomain, inFalseOnly, inMaterialBalanceType]
    | pyMaterial m =>
        simp [flashConfigDomain, inFalseOnly, inMaterialBalanceType]
    | pyEnergy e =>
        simp [flashConfigDomain, inFalseOnly, inMaterialBalanceType]
    | pyMomentum p =>
        simp [flashConfigDomain, inFalseOnly, inMaterialBalanceType]
    | pyStr s =>
        simp [flashConfigDomain, inFalseOnly, inMaterialBalanceType]

/-- C2: FlashData.build adds exactly one inlet port and the two outlet
ports vap_outlet and liq_outlet, backed by a Separator configured with
outlet list Vap, Liq, split basis phaseFlow, ideal separation on, and an
ideal split map sending every phase of the property package phase list to
itself. -/
theorem flash_build_ports_and_separator (config : FlashConfig)
    (phase_list : List String) :
    (flashBuild config phase_list).inlet_ports = ["inlet"] ∧
    (flashBuild config phase_list).outlet_ports =
      ["vap_outlet", "liq_outlet"] ∧
    (flashBuild config phase_list).split.outlet_list = ["Vap", "Liq"] ∧
    (flashBuild config phase_list).split.split_basis =
      SplittingType.phaseFlow ∧
    (flashBuild config phase_list).split.ideal_separation = true ∧
    (flashBuild config phase_list).split.ideal_split_map =
      phase_list.map (fun p => (p, p)) ∧
    ∀ p, p ∈ phase_list →
      (p, p) ∈ (flashBuild config phase_list).split.ideal_split_map := by
  refine ⟨rfl, rfl, rfl, rfl, rfl, rfl, ?_⟩
  intro p hp
  exact List.mem_map.mpr ⟨p, hp, rfl⟩

/-- Witness for C2 at the default configuration and a two-phase package. -/
theorem flash_build_ports_and_separator_witness :
    ("Vap", "Vap") ∈
      (flashBuild defaultFlashConfig ["Vap", "Liq"]).split.ideal_split_map :=
  (flash_build_ports_and_separator defaultFlashConfig
    ["Vap", "Liq"]).2.2.2.2.2.2 "Vap" (by decide)

/-- C3: FlashData.build declares state blocks and material balances with
phase equilibrium enabled, energy balances with the heat transfer term set
by has_heat_transfer, momentum balances with the pressure change term set
by has_pressure_change, and the configured balance types default to
componentPhase, enthalpyTotal and pressureTotal. -/
theorem flash_build_control_volume (config : FlashConfig)
    (phase_list : List String) :
    (flashBuild config
      phase_list).control_volume.state_blocks_has_phase_equilibrium
      = true ∧
    (flashBuild config
      phase_list).control_volume.material_has_phase_equilibrium = true ∧
    (flashBuild config phase_list).control_volume.material_balance_type =
      config.material_balance_type ∧
    (flashBuild config phase_list).control_volume.energy_balance_type =
      config.energy_balance_type ∧
    (flashBuild config phase_list).control_volume.has_heat_transfer =
      config.has_heat_transfer ∧
    (flashBuild config phase_list).control_volume.momentum_balance_type =
      config.momentum_balance_type ∧
    (flashBuild config phase_list).control_volume.has_pressure_change =
      config.has_pressure_change ∧
    defaultFlashConfig.material_balance_type =
      MaterialBalanceType.componentPhase ∧
    defaultFlashConfig.energy_balance_type =
      EnergyBalanceType.enthalpyTotal ∧
    defaultFlashConfig.momentum_balance_type =
      MomentumBalanceType.pressureTotal :=
  ⟨rfl, rfl, rfl, rfl, rfl, rfl, rfl, rfl, rfl, rfl⟩

/-- C9: the guards comparing an enum-valued balance type against the
string "none" are vacuous, because an enum member never equals a string
under Python equality; hence heat_duty is added exactly when
has_heat_transfer is True and deltaP exactly when has_pressure_change is
True, for every balance type choice including the none members. -/
theorem flash_reference_guards_vacuous :
    (∀ e : EnergyBalanceType,
      pyEq (ConfigArg.pyEnergy e) (ConfigArg.pyStr "none") = false) ∧
    (∀ m : MomentumBalanceType,
      pyEq (ConfigArg.pyMomentum m) (ConfigArg.pyStr "none") = false) ∧
    ∀ (config : FlashConfig) (phase_list : List String),
      (flashBuild config phase_list).has_heat_duty =
        config.has_heat_transfer ∧
      (flashBuild config phase_list).has_deltaP =
        config.has_pressure_change := by
  refine ⟨fun e => rfl, fun m => rfl, ?_⟩
  intro config phase_list
  constructor
  · simp [flashBuild, pyEq]
  · simp [flashBuild, pyEq]

/-- C10: the declared default of has_heat_transfer is True, although its
doc text says False, and the default of has_pressure_change is True; a
Flash built with the default configuration therefore has both the heat
transfer and pressure change terms and both the heat_duty and deltaP
references. -/
theorem flash_defaults_heat_and_pressure :
    flashConfigDefault "has_heat_transfer" =
      some (ConfigArg.pyBool true) ∧
    flashConfigDocDefaultText "has_heat_transfer" = some "False" ∧
    flashConfigDefault "has_pressure_change" =
      some (ConfigArg.pyBool true) ∧
    defaultFlashConfig.has_heat_transfer = true ∧
    defaultFlashConfig.has_pressure_change = true ∧
    ∀ phase_list : List String,
      (flashBuild defaultFlashConfig
        phase_list).control_volume.has_heat_transfer = true ∧
      (flashBuild defaultFlashConfig
        phase_list).control_volume.has_pressure_change = true ∧
      (flashBuild defaultFlashConfig phase_list).has_heat_duty = true ∧
      (flashBuild defaultFlashConfig phase_list).has_deltaP = true := by
  refine ⟨rfl, rfl, rfl, rfl, rfl, ?_⟩
  intro phase_list
  exact ⟨rfl, rfl, rfl, rfl⟩

/- ============== SolventReboiler unit (tests only under src) ============ -/

/-- A liquid solvent stream of the aqueous MEA system: total molar flow
and the mole fractions of its three components CO2, H2O and MEA. -/
structure LiquidStream where
  flow_mol : ℚ
  x_CO2 : ℚ
  x_H2O : ℚ
  x_MEA : ℚ
deriving DecidableEq, Repr

/-- A vapor stream of the flue gas system: total molar flow and the mole
fractions of its four components CO2, H2O, N2 and O2. -/
structure VaporStream where
  flow_mol : ℚ
  y_CO2 : ℚ
  y_H2O : ℚ
  y_N2 : ℚ
  y_O2 : ℚ
deriving DecidableEq, Repr

/-- A state of the SolventReboiler model: liquid inlet, liquid bottoms and
vapor reboil streams, the enthalpy flow terms of the three streams, and
the heat duty. -/
structure ReboilerState where
  inlet : LiquidStream
  bottoms : LiquidStream
  vapor_reboil : VaporStream
  enthalpy_flow_liq_in : ℚ
  enthalpy_flow_liq_out : ℚ
  enthalpy_flow_vap : ℚ
  heat_duty : ℚ
deriving DecidableEq, Repr

/-- Modelled from the spec: the SolventReboiler implementation
(solvent_reboiler.py) is not under src, only its tests.  Its
unit_material_balance, per the mass conservation law the spec names and
the component set of its tests: each component entering with the liquid
inlet leaves through the bottoms and, for the volatile components CO2 and
H2O, the vapor reboil stream; MEA is involatile, and the vapor only
components N2 and O2 carry zero flow (the zero_flow_param of the tests). -/
def unit_material_balance (s : ReboilerState) : Prop :=
  s.inlet.flow_mol * s.inlet.x_CO2 =
    s.bottoms.flow_mol * s.bottoms.x_CO2 +
      s.vapor_reboil.flow_mol * s.vapor_reboil.y_CO2 ∧
  s.inlet.flow_mol * s.inlet.x_H2O =
    s.bottoms.flow_mol * s.bottoms.x_H2O +
      s.vapor_reboil.flow_mol * s.vapor_reboil.y_H2O ∧
  s.inlet.flow_mol * s.inlet.x_MEA = s.bottoms.flow_mol * s.bottoms.x_MEA ∧
  s.vapor_reboil.flow_mol * s.vapor_reboil.y_N2 = 0 ∧
  s.vapor_reboil.flow_mol * s.vapor_reboil.y_O2 = 0

/-- Modelled from the spec: the unit_enthalpy_balance of the
SolventReboiler, per the energy conservation law the spec names: the
enthalpy entering with the liquid plus the heat duty equals the enthalpy
leaving with the liquid bottoms and the vapor reboil streams. -/
def unit_enthalpy_balance (s : ReboilerState) : Prop :=
  s.enthalpy_flow_liq_in + s.heat_duty =
    s.enthalpy_flow_liq_out + s.enthalpy_flow_vap

/-- The mole fractions of every stream sum to one, the state block sum
relation of each property package. -/
def mole_frac_sums (s : ReboilerState) : Prop :=
  s.inlet.x_CO2 + s.inlet.x_H2O + s.inlet.x_MEA = 1 ∧
  s.bottoms.x_CO2 + s.bottoms.x_H2O + s.bottoms.x_MEA = 1 ∧
  s.vapor_reboil.y_CO2 + s.vapor_reboil.y_H2O +
    s.vapor_reboil.y_N2 + s.vapor_reboil.y_O2 = 1

instance (s : ReboilerState) : Decidable (unit_material_balance s) := by
  unfold unit_material_balance
  infer_instance

instance (s : ReboilerState) : Decidable (unit_enthalpy_balance s) := by
  unfold unit_enthalpy_balance
  infer_instance

instance (s : ReboilerState) : Decidable (mole_frac_sums s) := by
  unfold mole_frac_sums
  infer_instance

/-- C4: any SolventReboiler state satisfying the unit material and
enthalpy balances conserves moles and energy to within 1e-6: total flow,
the CO2 and H2O component flows, all inlet MEA into the bottoms, and the
enthalpy flows against the heat duty. -/
theorem reboiler_conservation (s : ReboilerState)
    (hm : unit_material_balance s) (he : unit_enthalpy_balance s)
    (hx : mole_frac_sums s) :
    |s.inlet.flow_mol - s.bottoms.flow_mol - s.vapor_reboil.flow_mol| ≤
      1 / 1000000 ∧
    |s.inlet.flow_mol * s.inlet.x_CO2 -
      s.bottoms.flow_mol * s.bottoms.x_CO2 -
      s.vapor_reboil.flow_mol * s.vapor_reboil.y_CO2| ≤ 1 / 1000000 ∧
    |s.inlet.flow_mol * s.inlet.x_H2O -
      s.bottoms.flow_mol * s.bottoms.x_H2O -
      s.vapor_reboil.flow_mol * s.vapor_reboil.y_H2O| ≤ 1 / 1000000 ∧
    |s.inlet.flow_mol * s.inlet.x_MEA -
      s.bottoms.flow_mol * s.bottoms.x_MEA| ≤ 1 / 1000000 ∧
    |s.enthalpy_flow_liq_in - s.enthalpy_flow_liq_out -
      s.enthalpy_flow_vap + s.heat_duty| ≤ 1 / 1000000 := by
  obtain ⟨h1, h2, h3, h4, h5⟩ := hm
  obtain ⟨e1, e2, e3⟩ := hx
  have htot : s.inlet.flow_mol - s.bottoms.flow_mol -
      s.vapor_reboil.flow_mol = 0 := by
    linear_combination h1 + h2 + h3 - h4 - h5 - s.inlet.flow_mol * e1 +
      s.bottoms.flow_mol * e2 + s.vapor_reboil.flow_mol * e3
  have hc : s.inlet.flow_mol * s.inlet.x_CO2 -
      s.bottoms.flow_mol * s.bottoms.x_CO2 -
      s.vapor_reboil.flow_mol * s.vapor_reboil.y_CO2 = 0 := by
    linear_combination h1
  have hw : s.inlet.flow_mol * s.inlet.x_H2O -
      s.bottoms.flow_mol * s.bottoms.x_H2O -
      s.vapor_reboil.flow_mol * s.vapor_reboil.y_H2O = 0 := by
    linear_combination h2
  have ha : s.inlet.flow_mol * s.inlet.x_MEA -
      s.bottoms.flow_mol * s.bottoms.x_MEA = 0 := by
    linear_combination h3
  have he2 : s.enthalpy_flow_liq_in + s.heat_duty =
      s.enthalpy_flow_liq_out + s.enthalpy_flow_vap := he
  have hh : s.enthalpy_flow_liq_in - s.enthalpy_flow_liq_out -
      s.enthalpy_flow_vap + s.heat_duty = 0 := by
    linear_combination he2
  rw [htot, hc, hw, ha, hh, abs_zero]
  norm_num

/-- A concrete SolventReboiler state satisfying both balances: two moles
of feed split evenly into bottoms and vapor. -/
def reboilerExampleState : ReboilerState :=
{ inlet := { flow_mol := 2, x_CO2 := 1/4, x_H2O := 1/2, x_MEA := 1/4 }
  bottoms := { flow_mol := 1, x_CO2 := 0, x_H2O := 1/2, x_MEA := 1/2 }
  vapor_reboil :=
    { flow_mol := 1, y_CO2 := 1/2, y_H2O := 1/2, y_N2 := 0, y_O2 := 0 }
  enthalpy_flow_liq_in := 10
  enthalpy_flow_liq_out := 4
  enthalpy_flow_vap := 8
  heat_duty := 2 }

/-- Witness for C4 at the concrete example state. -/
theorem reboiler_conservation_witness :
    unit_material_balance reboilerExampleState ∧
    unit_enthalpy_balance reboilerExampleState ∧
    mole_frac_sums reboilerExampleState ∧
    |reboilerExampleState.inlet.flow_mol -
      reboilerExampleState.bottoms.flow_mol -
      reboilerExampleState.vapor_reboil.flow_mol| ≤ 1 / 1000000 :=
  ⟨by norm_num [unit_material_balance, reboilerExampleState],
    by norm_num [unit_enthalpy_balance, reboilerExampleState],
    by norm_num [mole_frac_sums, reboilerExampleState],
    (reboiler_conservation reboilerExampleState
      (by norm_num [unit_material_balance, reboilerExampleState])
      (by norm_num [unit_enthalpy_balance, reboilerExampleState])
      (by norm_num [mole_frac_sums, reboilerExampleState])).1⟩

/- ================= External solver interface (framework) ================ -/

/-- Modelled from the spec: the termination conditions an external
nonlinear solver can report, as the spec enumerates them. -/
inductive TerminationCondition where
| optimal
| infeasible
| unbounded
deriving DecidableEq, Repr

/-- The status field of a solver result. -/
inductive ReportedStatus where
| ok
| warning
| error
deriving DecidableEq, Repr

/-- The result object returned by the external solver: a termination
condition and a status. -/
structure SolverResults where
  termination_condition : TerminationCondition
  status : ReportedStatus
deriving DecidableEq, Repr

/-- Modelled from the spec: the repository delegates error handling to the
external solver and reports its outcome unchanged; there is no recovery
branch, so the report of a solve is the result itself. -/
def reportSolve (r : SolverResults) : SolverResults := r

/-- The acceptance check of test_solve in the SolventReboiler tests: the
termination condition is optimal and the status is ok. -/
def successfulSolve (r : SolverResults) : Bool :=
  (r.termination_condition == TerminationCondition.optimal) &&
    (r.status == ReportedStatus.ok)

/-- C7: solving is delegated to an external solver whose result carries a
termination condition; a solve is successful exactly when that condition
is optimal and the status is ok, the repository reports results unchanged
with no recovery logic, and every termination condition is one of
optimal, infeasible or unbounded. -/
theorem solve_delegation_termination_conditions :
    (∀ r : SolverResults,
      successfulSolve (reportSolve r) = true ↔
        r.termination_condition = TerminationCondition.optimal ∧
          r.status = ReportedStatus.ok) ∧
    (∀ r : SolverResults, reportSolve r = r) ∧
    ∀ r : SolverResults,
      r.termination_condition = TerminationCondition.optimal ∨
      r.termination_condition = TerminationCondition.infeasible ∨
      r.termination_condition = TerminationCondition.unbounded := by
  refine ⟨?_, fun r => rfl, ?_⟩
  · intro r
    simp [successfulSolve, reportSolve]
  · intro r
    cases r with
    | mk t st => cases t <;> simp

/- ============ Solution value checks of the reboiler tests (C8) ========== -/

/-- One assertion of a test_solution method: either a pytest.approx
comparison of a model quantity against an expected value with a relative
tolerance, or an upper bound on the quantity. -/
inductive SolutionCheck where
| approxRel : String → ℚ → ℚ → SolutionCheck
| upperBound : String → ℚ → SolutionCheck
deriving DecidableEq, Repr

/-- The tolerance carried by a check: the relative tolerance of an approx
comparison, or the bound of an upper bound check. -/
def SolutionCheck.tolValue : SolutionCheck → ℚ
| SolutionCheck.approxRel _ _ r => r
| SolutionCheck.upperBound _ b => b

/-- The model quantity a check examines. -/
def SolutionCheck.quantity : SolutionCheck → String
| SolutionCheck.approxRel q _ _ => q
| SolutionCheck.upperBound q _ => q

/-- Whether the check is the upper bound form. -/
def SolutionCheck.isUB : SolutionCheck → Bool
| SolutionCheck.approxRel _ _ _ => false
| SolutionCheck.upperBound _ _ => true

/-- The meaning of a check against an actual solution value:
pytest.approx with a relative tolerance passes when the error is within
the tolerance times the magnitude of the expected value (or within the
default absolute floor of 1e-12); an upper bound check passes when the
value does not exceed the bound. -/
def SolutionCheck.passes : SolutionCheck → ℚ → Prop
| SolutionCheck.approxRel _ e r, actual =>
    |actual - e| ≤ max (r * |e|) (1 / 1000000000000)
| SolutionCheck.upperBound _ b, actual => actual ≤ b

/-- The assertions of TestAbsorberVaporFlow.test_solution (solvent
reboiler tests, lines 149 to 179), in source order. -/
def vaporFlowSolutionChecks : List SolutionCheck :=
[SolutionCheck.approxRel "bottoms.flow_mol" 74.33 (1/100000),
 SolutionCheck.approxRel "bottoms.mole_frac_comp CO2" 0.0285221 (1/100000),
 SolutionCheck.approxRel "bottoms.mole_frac_comp MEA" 0.122455 (1/100000),
 SolutionCheck.approxRel "bottoms.mole_frac_comp H2O" 0.849023 (1/100000),
 SolutionCheck.approxRel "bottoms.pressure" 183700 (1/100000),
 SolutionCheck.approxRel "bottoms.temperature" 393.773 (1/100000),
 SolutionCheck.approxRel "vapor_reboil.flow_mol" 9.56 (1/100000),
 SolutionCheck.approxRel "vapor_reboil.mole_frac_comp CO2" 0.0643063
   (1/100000),
 SolutionCheck.approxRel "vapor_reboil.mole_frac_comp H2O" 0.935693
   (1/100000),
 SolutionCheck.upperBound "vapor_reboil.mole_frac_comp N2" (1/100000000),
 SolutionCheck.upperBound "vapor_reboil.mole_frac_comp O2" (1/100000000),
 SolutionCheck.approxRel "vapor_reboil.pressure" 183700 (1/100000),
 SolutionCheck.approxRel "vapor_reboil.temperature" 393.773 (1/100000),
 SolutionCheck.approxRel "heat_duty" 391220 (1/100000)]

/-- The assertions of TestAbsorberHeatDuty.test_solution (solvent
reboiler tests, lines 314 to 344), in source order; heat_duty is fixed in
that fixture and not asserted. -/
def heatDutySolutionChecks : List SolutionCheck :=
[SolutionCheck.approxRel "bottoms.flow_mol" 73.3324 (1/100000),
 SolutionCheck.approxRel "bottoms.mole_frac_comp CO2" 0.0284629 (1/100000),
 SolutionCheck.approxRel "bottoms.mole_frac_comp MEA" 0.124121 (1/100000),
 SolutionCheck.approxRel "bottoms.mole_frac_comp H2O" 0.847416 (1/100000),
 SolutionCheck.approxRel "bottoms.pressure" 183700 (1/100000),
 SolutionCheck.approxRel "bottoms.temperature" 393.934 (1/100000),
 SolutionCheck.approxRel "vapor_reboil.flow_mol" 10.5576 (1/100000),
 SolutionCheck.approxRel "vapor_reboil.mole_frac_comp CO2" 0.0613360
   (1/100000),
 SolutionCheck.approxRel "vapor_reboil.mole_frac_comp H2O" 0.938664
   (1/100000),
 SolutionCheck.upperBound "vapor_reboil.mole_frac_comp N2" (1/100000000),
 SolutionCheck.upperBound "vapor_reboil.mole_frac_comp O2" (1/100000000),
 SolutionCheck.approxRel "vapor_reboil.pressure" 183700 (1/100000),
 SolutionCheck.approxRel "vapor_reboil.temperature" 393.934 (1/100000)]

/-- C8: every solution value assertion of the two SolventReboiler
solution tests uses relative tolerance 1e-5, except the trace components
N2 and O2 of the vapor reboil stream, which are bounded above by 1e-8. -/
theorem solution_checks_use_engineering_tolerances (c : SolutionCheck)
    (hc : c ∈ vaporFlowSolutionChecks ++ heatDutySolutionChecks) :
    (c.isUB = false → c.tolValue = 1 / 100000) ∧
    (c.isUB = true → c.tolValue = 1 / 100000000 ∧
      (c.quantity = "vapor_reboil.mole_frac_comp N2" ∨
        c.quantity = "vapor_reboil.mole_frac_comp O2")) := by
  fin_cases hc <;>
    simp [SolutionCheck.isUB, SolutionCheck.tolValue, SolutionCheck.quantity]

/-- Witness for C8 at the first trace component check of the vapor flow
fixture. -/
theorem solution_checks_use_engineering_tolerances_witness :
    ((SolutionCheck.upperBound "vapor_reboil.mole_frac_comp N2"
        (1/100000000)).isUB = false →
      (SolutionCheck.upperBound "vapor_reboil.mole_frac_comp N2"
        (1/100000000)).tolValue = 1 / 100000) ∧
    ((SolutionCheck.upperBound "vapor_reboil.mole_frac_comp N2"
        (1/100000000)).isUB = true →
      (SolutionCheck.upperBound "vapor_reboil.mole_frac_comp N2"
        (1/100000000)).tolValue = 1 / 100000000 ∧
      ((SolutionCheck.upperBound "vapor_reboil.mole_frac_comp N2"
          (1/100000000)).quantity = "vapor_reboil.mole_frac_comp N2" ∨
        (SolutionCheck.upperBound "vapor_reboil.mole_frac_comp N2"
          (1/100000000)).quantity = "vapor_reboil.mole_frac_comp O2")) :=
  solution_checks_use_engineering_tolerances
    (SolutionCheck.upperBound "vapor_reboil.mole_frac_comp N2"
      (1/100000000))
    (by simp [vaporFlowSolutionChecks, heatDutySolutionChecks])

/- ============== Degrees of freedom (framework utility, C5) ============= -/

/-- An algebraic equation system: named variables, each with a fixed
flag, and named equality constraints. -/
structure EqSystem where
  vars : List (String × Bool)
  constraints : List String
deriving DecidableEq, Repr

/-- Total number of variables of a system. -/
def number_variables (s : EqSystem) : ℕ := s.vars.length

/-- Number of fixed variables of a system. -/
def number_fixed_variables (s : EqSystem) : ℕ :=
  (s.vars.filter (fun v => v.2)).length

/-- Number of unfixed variables of a system. -/
def number_unfixed_variables (s : EqSystem) : ℕ :=
  (s.vars.filter (fun v => !v.2)).length

/-- Number of constraints of a system. -/
def number_total_constraints (s : EqSystem) : ℕ := s.constraints.length

/-- Modelled from the spec: degrees_of_freedom (an IDAES model statistics
utility not under src) per the glossary: the count of unfixed variables
minus independent constraints in an equation system. -/
def degrees_of_freedom (s : EqSystem) : ℤ :=
  (number_unfixed_variables s : ℤ) - (number_total_constraints s : ℤ)

/-- Unfixed and fixed variables partition the variable list. -/
theorem unfixed_add_fixed (s : EqSystem) :
    number_unfixed_variables s + number_fixed_variables s =
      number_variables s := by
  unfold number_unfixed_variables number_fixed_variables number_variables
  induction s.vars with
  | nil => rfl
  | cons a t ih =>
      cases h : a.2 <;> simp [List.filter_cons, h] <;> omega

/-- Modelled from the spec: a single phase BTX NRTL state block with
defined_state True (the property package code is not under src).  It
holds the five state variables of the tests, which fix all of them, and
no constraints; the mole fraction sum constraint eq_mol_frac_out is only
added when defined_state is False. -/
def nrtlSinglePhaseFixedBlock (phase : String) : EqSystem :=
{ vars := [("flow_mol " ++ phase, true),
    ("mole_frac benzene", true), ("mole_frac toluene", true),
    ("temperature", true), ("pressure", true)]
  constraints := [] }

/-- Modelled from the spec: the two phase BTX NRTL state block with
defined_state True.  Beyond the five fixed state variables it declares
the phase flows, phase mole fractions, activity coefficients and the
NRTL correlation parameters (tau over component pairs, alpha over
distinct pairs), tied by the total and component flow balances, the mole
fraction sum relation, the phase equilibrium constraint eq_Keq and the
activity coefficient constraint eq_activity_coeff; the six correlation
parameters are the free degrees its tests report. -/
def nrtlVaporLiquidFixedBlock : EqSystem :=
{ vars := [("flow_mol", true),
    ("mole_frac benzene", true), ("mole_frac toluene", true),
    ("temperature", true), ("pressure", true),
    ("flow_mol_phase Liq", false), ("flow_mol_phase Vap", false),
    ("mole_frac_phase Liq benzene", false),
    ("mole_frac_phase Liq toluene", false),
    ("mole_frac_phase Vap benzene", false),
    ("mole_frac_phase Vap toluene", false),
    ("activity_coeff_comp benzene", false),
    ("activity_coeff_comp toluene", false),
    ("tau benzene benzene", false), ("tau benzene toluene", false),
    ("tau toluene benzene", false), ("tau toluene toluene", false),
    ("alpha benzene toluene", false), ("alpha toluene benzene", false)]
  constraints := ["eq_total", "eq_comp benzene", "eq_comp toluene",
    "eq_sum_mol_frac", "eq_Keq benzene", "eq_Keq toluene",
    "eq_activity_coeff benzene", "eq_activity_coeff toluene"] }

/-- Modelled from the spec: the fully specified SolventReboiler
flowsheet, represented through the counts its tests assert, 84 variables
and 77 constraints, with the seven inputs its fixtures fix (inlet molar
flow, temperature, pressure, three inlet mole fractions, and the vapor
reboil flow or the heat duty). -/
def solventReboilerSystem : EqSystem :=
{ vars :=
    (List.range 7).map (fun i => ("fixed_input " ++ toString i, true)) ++
      (List.range 77).map (fun i => ("free_var " ++ toString i, false))
  constraints := (List.range 77).map (fun i => "eq " ++ toString i) }

/-- C5: degrees_of_freedom is the count of unfixed variables minus
constraints; after fixing flow, temperature, pressure and the mole
fractions it is 0 for the liquid only and vapor only BTX NRTL blocks, 6
for the vapor liquid block, and 0 for the fully specified SolventReboiler
model. -/
theorem degrees_of_freedom_values :
    (∀ s : EqSystem, degrees_of_freedom s =
      (number_unfixed_variables s : ℤ) -
        (number_total_constraints s : ℤ)) ∧
    (∀ s : EqSystem,
      number_unfixed_variables s + number_fixed_variables s =
        number_variables s) ∧
    degrees_of_freedom (nrtlSinglePhaseFixedBlock "Liq") = 0 ∧
    degrees_of_freedom (nrtlSinglePhaseFixedBlock "Vap") = 0 ∧
    degrees_of_freedom nrtlVaporLiquidFixedBlock = 6 ∧
    degrees_of_freedom solventReboilerSystem = 0 := by
  refine ⟨fun s => rfl, unfixed_add_fixed, ?_, ?_, ?_, ?_⟩ <;> decide

/- ======== BTX NRTL state block constraint construction (C6) ============ -/

/-- The valid_phase configuration of the BTX parameter block: a single
phase, or the two phase pair, which the framework may store with its
members in either order. -/
inductive ValidPhase where
| liq
| vap
| liqVap
deriving DecidableEq, Repr

/-- Which of the three observable constraints a state block build adds. -/
structure StateBlockCons where
  eq_Keq : Bool
  eq_activity_coeff : Bool
  eq_mol_frac_out : Bool
deriving DecidableEq, Repr

/-- Modelled from the spec: the BTX NRTL state block build (activity
coefficient property package, not under src).  The NRTL correlation is
used in phase equilibrium constraints, so eq_Keq and eq_activity_coeff
are added only for the two phase pair, and eq_mol_frac_out closes the
mole fraction sum only when the state is not externally defined. -/
def buildNRTLStateBlock (valid_phase : ValidPhase)
    (defined_state : Bool) : StateBlockCons :=
{ eq_Keq := valid_phase == ValidPhase.liqVap
  eq_activity_coeff := valid_phase == ValidPhase.liqVap
  eq_mol_frac_out := !defined_state }

/-- C6: eq_Keq and eq_activity_coeff are constructed if and only if
valid_phase is the two phase pair; single phase blocks have neither; and
eq_mol_frac_out is constructed if and only if defined_state is False. -/
theorem nrtl_state_block_constraints (valid_phase : ValidPhase)
    (defined_state : Bool) :
    ((buildNRTLStateBlock valid_phase defined_state).eq_Keq = true ↔
      valid_phase = ValidPhase.liqVap) ∧
    ((buildNRTLStateBlock valid_phase
        defined_state).eq_activity_coeff = true ↔
      valid_phase = ValidPhase.liqVap) ∧
    ((buildNRTLStateBlock valid_phase
        defined_state).eq_mol_frac_out = true ↔
      defined_state = false) := by
  cases valid_phase <;> cases defined_state <;>
    simp [buildNRTLStateBlock]

end IdaesPySTAR
